import Mathlib

/-!
Verification of the market-data service core (`src/services/market-data/src/`):
the order-book store (`orderbook.rs`), the fan-out publisher (`publisher.rs`),
the shared-memory ring (`shm.rs`) and the feed client's reconnect backoff and
depth-update handler (`websocket.rs`).

Modelling conventions:
* Rust `f64` prices and quantities become `ℚ`.  The code only ever compares
  prices (`BTreeMap<OrderedFloat, f64>` key order), tests quantities against
  `0.0`, and averages two prices, so rational arithmetic mirrors it exactly
  on every non-NaN input.
* `BTreeMap<OrderedFloat, f64>` becomes an association list with strictly
  ascending keys (`PriceMap`); `iter().next()` is the head, `iter().next_back()`
  the last element.
* A Rust method on `&mut self` returning `Result<T, E>` becomes a function
  returning the `Except` result paired with the post-state.
* `Utc::now().timestamp_micros()` is passed in as an explicit `now : ℤ`.
* `u64` sequence ids become `ℕ`.
-/

/-- A price level of a depth update (`orderbook.rs:7-11`). -/
structure PriceLevel where
  price : ℚ
  quantity : ℚ
deriving DecidableEq, Repr

/-- The `BTreeMap<OrderedFloat, f64>` sides of a book: an association list
`price → quantity` kept strictly ascending in the price key. -/
abbrev PriceMap := List (ℚ × ℚ)

/-- `BTreeMap::insert`, preserving strictly ascending key order. -/
def PriceMap.insertLevel : PriceMap → ℚ → ℚ → PriceMap
  | [], p, q => [(p, q)]
  | (k, v) :: t, p, q =>
    if p < k then (p, q) :: (k, v) :: t
    else if p = k then (p, q) :: t
    else (k, v) :: PriceMap.insertLevel t p q

/-- `BTreeMap::remove` (dropping the first — on a sorted map, only — entry
with the given key). -/
def PriceMap.removeLevel : PriceMap → ℚ → PriceMap
  | [], _ => []
  | (k, v) :: t, p => if p = k then t else (k, v) :: PriceMap.removeLevel t p

/-- One iteration of the per-level loop in `OrderBook::apply_update`
(`orderbook.rs:84-101`): quantity `0` removes the price, otherwise upsert. -/
def PriceMap.applyLevel (m : PriceMap) (l : PriceLevel) : PriceMap :=
  if l.quantity = 0 then PriceMap.removeLevel m l.price
  else PriceMap.insertLevel m l.price l.quantity

/-- The whole per-side loop of `OrderBook::apply_update`. -/
def PriceMap.applyLevels (m : PriceMap) (ls : List PriceLevel) : PriceMap :=
  ls.foldl PriceMap.applyLevel m

/-- A depth update (`orderbook.rs:150-157`). -/
structure DepthUpdate where
  symbol : String
  first_update_id : ℕ
  last_update_id : ℕ
  bids : List PriceLevel
  asks : List PriceLevel
deriving DecidableEq, Repr

/-- An order book (`orderbook.rs:13-20`). -/
structure OrderBook where
  symbol : String
  bids : PriceMap
  asks : PriceMap
  last_update_id : ℕ
  timestamp : ℤ
deriving DecidableEq, Repr

/-- `OrderBook::new` (`orderbook.rs:62-70`); `now` is the wall clock. -/
def OrderBook.new (symbol : String) (now : ℤ) : OrderBook :=
  { symbol := symbol, bids := [], asks := [], last_update_id := 0, timestamp := now }

/-- The error string built at `orderbook.rs:76-80`. -/
def gapMessage (expected got : ℕ) : String :=
  "Sequence gap detected: expected " ++ toString expected ++ ", got " ++ toString got

/-- `OrderBook::apply_update` (`orderbook.rs:73-107`).  The Rust method mutates
`self` and returns `Result<(), String>`; here the result is paired with the
post-state.  On the gap branch the method returns before touching any field,
so the paired state is the input book unchanged. -/
def OrderBook.apply_update (b : OrderBook) (u : DepthUpdate) (now : ℤ) :
    Except String Unit × OrderBook :=
  if u.first_update_id > b.last_update_id + 1 then
    (Except.error (gapMessage (b.last_update_id + 1) u.first_update_id), b)
  else
    (Except.ok (),
      { b with
        bids := PriceMap.applyLevels b.bids u.bids
        asks := PriceMap.applyLevels b.asks u.asks
        last_update_id := u.last_update_id
        timestamp := now })

/-- `self.bids.iter().next_back()`: the highest bid price (`orderbook.rs:137`,
`publisher.rs:71`). -/
def OrderBook.best_bid (b : OrderBook) : Option ℚ :=
  (b.bids.map Prod.fst).getLast?

/-- `self.asks.iter().next()`: the lowest ask price (`orderbook.rs:138`,
`publisher.rs:72`). -/
def OrderBook.best_ask (b : OrderBook) : Option ℚ :=
  (b.asks.map Prod.fst).head?

/-- `OrderBook::mid_price` (`orderbook.rs:136-140`). -/
def OrderBook.mid_price (b : OrderBook) : Option ℚ :=
  match b.best_bid, b.best_ask with
  | some bb, some ba => some ((bb + ba) / 2)
  | _, _ => none

/-- The `AHashMap<String, OrderBook>` of `OrderBookManager` (`orderbook.rs:169-172`)
as an association list keyed by symbol. -/
structure OrderBookManager where
  books : List (String × OrderBook)
deriving DecidableEq, Repr

/-- Map lookup on the manager's book table. -/
def booksLookup : List (String × OrderBook) → String → Option OrderBook
  | [], _ => none
  | (s, b) :: t, sym => if sym = s then some b else booksLookup t sym

/-- Map insert-or-replace on the manager's book table. -/
def booksInsert : List (String × OrderBook) → String → OrderBook → List (String × OrderBook)
  | [], sym, b => [(sym, b)]
  | (s, b0) :: t, sym, b => if sym = s then (sym, b) :: t else (s, b0) :: booksInsert t sym b

/-- Map removal on the manager's book table (`books.remove(&self.symbol)`,
`websocket.rs:257`). -/
def booksRemove : List (String × OrderBook) → String → List (String × OrderBook)
  | [], _ => []
  | (s, b) :: t, sym => if sym = s then t else (s, b) :: booksRemove t sym

/-- `OrderBookManager::update` (`orderbook.rs:196-204`): `entry(..).or_insert_with`
creates a fresh book for an absent symbol (and stores it even when the apply
then fails), then `apply_update` runs on the entry. -/
def OrderBookManager.update (m : OrderBookManager) (symbol : String) (u : DepthUpdate)
    (now : ℤ) : Except String OrderBook × OrderBookManager :=
  let book :=
    match booksLookup m.books symbol with
    | some b => b
    | none => OrderBook.new symbol now
  match book.apply_update u now with
  | (Except.ok _, b) => (Except.ok b, { books := booksInsert m.books symbol b })
  | (Except.error e, b) => (Except.error e, { books := booksInsert m.books symbol b })

/-- `WebSocketClient::handle_depth_update` (`websocket.rs:225-259`), after the
Binance-format conversion: the store update, then either publish (when both
sides are non-empty) or remove the book on a sequence error.  Returns the
post-state of the store and whether `publish_orderbook` was called. -/
def handle_depth_update (m : OrderBookManager) (symbol : String) (u : DepthUpdate)
    (now : ℤ) : OrderBookManager × Bool :=
  match m.update symbol u now with
  | (Except.ok book, m1) =>
      (m1, decide (book.bids ≠ []) && decide (book.asks ≠ []))
  | (Except.error _, m1) =>
      ({ books := booksRemove m1.books symbol }, false)

/-- Books reachable from `OrderBook::new` by successful `apply_update`s. -/
inductive ReachableBook : OrderBook → Prop
  | base (symbol : String) (now : ℤ) : ReachableBook (OrderBook.new symbol now)
  | step (b : OrderBook) (u : DepthUpdate) (now : ℤ) (b1 : OrderBook) :
      ReachableBook b → b.apply_update u now = (Except.ok (), b1) → ReachableBook b1

/-- The quote summary built inside `Publisher::publish_orderbook`
(`publisher.rs:19-29`, `79-88`); the three `_24h` fields are written as `0.0`
(TODO in the source) and `updated_at` is wall clock, so they are omitted. -/
structure MarketData where
  symbol : String
  last_price : ℚ
  bid_price : ℚ
  ask_price : ℚ
deriving DecidableEq, Repr

/-- The derivation at `publisher.rs:71-88`: `best_bid`/`best_ask` default to `0`
on an empty side (`unwrap_or(0.0)`), and `last_price` is the mid only when both
are strictly positive. -/
def marketDataOf (b : OrderBook) : MarketData :=
  let best_bid := b.best_bid.getD 0
  let best_ask := b.best_ask.getD 0
  let last_price := if 0 < best_bid ∧ 0 < best_ask then (best_bid + best_ask) / 2 else 0
  { symbol := b.symbol, last_price := last_price,
    bid_price := best_bid, ask_price := best_ask }

/-- The success/failure of each of the four sink operations attempted by
`publish_orderbook`: the oracle for the I/O calls. -/
structure PublishOutcomes where
  busOrderbook : Bool
  cacheSet : Bool
  busMarketData : Bool
  ringWrite : Bool
deriving DecidableEq, Repr

/-- What one `publish_orderbook` call did: how often each sink was attempted,
how far the symbol-labelled counters moved, and the returned result.
`redisErrors` counts `metrics::REDIS_ERRORS.with_label_values(&[&book.symbol])`
increments, `redisPublishes` the `REDIS_PUBLISHES` increments. -/
structure PublishTrace where
  busOrderbookAttempts : ℕ
  cacheSetAttempts : ℕ
  busMarketDataAttempts : ℕ
  ringWriteAttempts : ℕ
  redisErrors : ℕ
  redisPublishes : ℕ
  returnsOk : Bool
deriving DecidableEq, Repr

/-- `Publisher::publish_orderbook` (`publisher.rs:50-127`) with the sink I/O
abstracted by `PublishOutcomes`.  `serde_json::to_string` of the book and of
the market data are kept as always succeeding — the claims under study
quantify over per-sink failures only.  Step 1 publishes the book payload and
counts an error on failure; step 2 stores the market data with TTL and counts
an error on failure; step 3 publishes the market data and on failure only
logs (`publisher.rs:115-117`); step 4 writes the ring and on failure only
logs (`publisher.rs:121-123`).  No step is skipped and the call ends in `Ok`. -/
def publish_orderbook (b : OrderBook) (o : PublishOutcomes) : PublishTrace :=
  let t0 : PublishTrace :=
    { busOrderbookAttempts := 0, cacheSetAttempts := 0, busMarketDataAttempts := 0,
      ringWriteAttempts := 0, redisErrors := 0, redisPublishes := 0, returnsOk := false }
  let _q := marketDataOf b
  let t1 :=
    { t0 with
      busOrderbookAttempts := t0.busOrderbookAttempts + 1,
      redisPublishes := if o.busOrderbook then t0.redisPublishes + 1 else t0.redisPublishes,
      redisErrors := if o.busOrderbook then t0.redisErrors else t0.redisErrors + 1 }
  let t2 :=
    { t1 with
      cacheSetAttempts := t1.cacheSetAttempts + 1,
      redisErrors := if o.cacheSet then t1.redisErrors else t1.redisErrors + 1 }
  let t3 :=
    { t2 with
      busMarketDataAttempts := t2.busMarketDataAttempts + 1,
      redisPublishes := if o.busMarketData then t2.redisPublishes + 1 else t2.redisPublishes }
  let t4 :=
    { t3 with ringWriteAttempts := t3.ringWriteAttempts + 1 }
  { t4 with returnsOk := true }

/-- `SharedMemoryRing` (`shm.rs:8-12`): records are byte vectors; `capacity`
is the `ArrayQueue`'s slot count. -/
structure SharedMemoryRing where
  name : String
  queue : List (List ℕ)
  max_message_size : ℕ
  capacity : ℕ
deriving DecidableEq, Repr

/-- `SharedMemoryRing::new` (`shm.rs:15-25`): the queue is built as
`ArrayQueue::new(1024)` and the per-record cap as `64 * 1024`; the `capacity`
argument is never read.  The Rust constructor wraps this in `Ok`, and no
branch of it errors. -/
def SharedMemoryRing.new (name : String) (capacity : ℕ) : SharedMemoryRing :=
  { name := name, queue := [], max_message_size := 64 * 1024, capacity := 1024 }

/-- `SharedMemoryRing::write` (`shm.rs:27-39`): reject a record above
`max_message_size`, else `ArrayQueue::push`, which fails exactly when the
queue already holds `capacity` records and never evicts. -/
def SharedMemoryRing.write (r : SharedMemoryRing) (data : List ℕ) :
    Except String Unit × SharedMemoryRing :=
  if data.length > r.max_message_size then
    (Except.error "Message too large", r)
  else if r.queue.length < r.capacity then
    (Except.ok (), { r with queue := r.queue ++ [data] })
  else
    (Except.error "Ring buffer full", r)

/-- `SharedMemoryRing::read` (`shm.rs:41-43`): `ArrayQueue::pop`. -/
def SharedMemoryRing.read (r : SharedMemoryRing) :
    Option (List ℕ) × SharedMemoryRing :=
  match r.queue with
  | [] => (none, r)
  | d :: t => (some d, { r with queue := t })

/-- The ring constructed by `Publisher::new` (`publisher.rs:40`): it asks for a
"1MB ring buffer". -/
def publisherShmRing (shm_name : String) : SharedMemoryRing :=
  SharedMemoryRing.new shm_name (1024 * 1024)

/-- How one `run_connection` call (`websocket.rs:111-173`) ends: the connect
itself fails (`connect_async` error), the established stream later errors
(`msg.context` at `websocket.rs:149`), or the stream closes normally
(`Ok` return). -/
inductive SessionOutcome where
  | connectFail
  | streamError
  | normalClose
deriving DecidableEq, Repr

/-- Whether `run_connection` returned `Err` for that outcome. -/
def SessionOutcome.isErr : SessionOutcome → Bool
  | SessionOutcome.connectFail => true
  | SessionOutcome.streamError => true
  | SessionOutcome.normalClose => false

/-- The retry loop of `connect_and_run` (`websocket.rs:86-109`) given the
outcome of each successive `run_connection` call: on `Err` it sleeps
`current_delay` milliseconds and then doubles the delay, capped at `60000`;
on `Ok` it returns.  The value is the list of sleeps performed, in order. -/
def backoffSleeps : List SessionOutcome → ℕ → List ℕ
  | [], _ => []
  | o :: rest, delay =>
    if o.isErr then delay :: backoffSleeps rest (min (delay * 2) 60000)
    else []

/-- `connect_and_run` starts from `reconnect_delay = 1000` ms
(`websocket.rs:81`, `87`). -/
def connectAndRunSleeps (os : List SessionOutcome) : List ℕ :=
  backoffSleeps os 1000

/-- Spec scenario S1's bootstrap update (book absent, ids 42..45). -/
def s1Update : DepthUpdate :=
  { symbol := "BTCUSDT", first_update_id := 42, last_update_id := 45,
    bids := [{ price := 100, quantity := 3/2 }, { price := 99, quantity := 2 }],
    asks := [{ price := 101, quantity := 1 }] }

/-- The book spec scenario S1 expects: bids `{99: 2, 100: 1.5}`, asks
`{101: 1}`, `last_update_id = 45`. -/
def seededBook : OrderBook :=
  { symbol := "BTCUSDT", bids := [(99, 2), (100, 3/2)], asks := [(101, 1)],
    last_update_id := 45, timestamp := 0 }

/-- Spec scenario S4's stale update: ids 10..20, both below the seeded book's
`last_update_id = 45`. -/
def staleUpdate : DepthUpdate :=
  { symbol := "BTCUSDT", first_update_id := 10, last_update_id := 20,
    bids := [{ price := 100, quantity := 99/10 }], asks := [] }

/-- An accepted update carrying a zero-quantity delete and an upsert. -/
def zeroQtyUpdate : DepthUpdate :=
  { symbol := "BTCUSDT", first_update_id := 46, last_update_id := 46,
    bids := [{ price := 99, quantity := 0 }], asks := [{ price := 102, quantity := 3 }] }

/-- A single delta whose bid price (100) exceeds its ask price (50). -/
def crossedUpdate : DepthUpdate :=
  { symbol := "BTCUSDT", first_update_id := 1, last_update_id := 1,
    bids := [{ price := 100, quantity := 1 }], asks := [{ price := 50, quantity := 1 }] }

/-- The book left behind by applying `crossedUpdate` to a fresh book. -/
def crossedBook : OrderBook :=
  ((OrderBook.new "BTCUSDT" 0).apply_update crossedUpdate 0).2

/-- A book whose bid side is non-empty but whose best bid price is `0` — the
feed client maps an unparseable price string to `0.0`
(`p.parse().unwrap_or(0.0)`, `websocket.rs:210`), so such levels are storable. -/
def zeroBidBook : OrderBook :=
  { symbol := "BTCUSDT", bids := [(0, 1)], asks := [(101, 1)],
    last_update_id := 1, timestamp := 0 }

/-- Membership after `BTreeMap::remove` implies prior membership. -/
theorem mem_removeLevel {m : PriceMap} {p : ℚ} {e : ℚ × ℚ}
    (h : e ∈ PriceMap.removeLevel m p) : e ∈ m := by
  induction m with
  | nil => simpa [PriceMap.removeLevel] using h
  | cons kv t ih =>
    obtain ⟨k, v⟩ := kv
    by_cases hp : p = k
    · rw [PriceMap.removeLevel, if_pos hp] at h
      exact List.mem_cons_of_mem _ h
    · rw [PriceMap.removeLevel, if_neg hp] at h
      rcases List.mem_cons.mp h with h1 | h1
      · exact h1 ▸ List.mem_cons_self _ _
      · exact List.mem_cons_of_mem _ (ih h1)

/-- Membership after `BTreeMap::insert` is the inserted pair or prior
membership. -/
theorem mem_insertLevel {m : PriceMap} {p q : ℚ} {e : ℚ × ℚ}
    (h : e ∈ PriceMap.insertLevel m p q) : e = (p, q) ∨ e ∈ m := by
  induction m with
  | nil => simpa [PriceMap.insertLevel] using h
  | cons kv t ih =>
    obtain ⟨k, v⟩ := kv
    by_cases h1 : p < k
    · rw [PriceMap.insertLevel, if_pos h1] at h
      rcases List.mem_cons.mp h with h2 | h2
      · exact Or.inl h2
      · exact Or.inr h2
    · by_cases h2 : p = k
      · rw [PriceMap.insertLevel, if_neg h1, if_pos h2] at h
        rcases List.mem_cons.mp h with h3 | h3
        · exact Or.inl h3
        · exact Or.inr (List.mem_cons_of_mem _ h3)
      · rw [PriceMap.insertLevel, if_neg h1, if_neg h2] at h
        rcases List.mem_cons.mp h with h3 | h3
        · exact Or.inr (h3 ▸ List.mem_cons_self _ _)
        · rcases ih h3 with h4 | h4
          · exact Or.inl h4
          · exact Or.inr (List.mem_cons_of_mem _ h4)

/-- One level-loop iteration keeps "no stored quantity is 0": a zero-quantity
level only removes, a nonzero one inserts its nonzero quantity. -/
theorem applyLevel_no_zero {m : PriceMap} (hm : ∀ e ∈ m, e.2 ≠ 0) (l : PriceLevel) :
    ∀ e ∈ PriceMap.applyLevel m l, e.2 ≠ 0 := by
  intro e he
  unfold PriceMap.applyLevel at he
  by_cases hq : l.quantity = 0
  · rw [if_pos hq] at he
    exact hm e (mem_removeLevel he)
  · rw [if_neg hq] at he
    rcases mem_insertLevel he with h | h
    · rw [h]
      exact hq
    · exact hm e h

/-- The whole per-side loop keeps "no stored quantity is 0". -/
theorem applyLevels_no_zero {ls : List PriceLevel} :
    ∀ {m : PriceMap}, (∀ e ∈ m, e.2 ≠ 0) →
      ∀ e ∈ PriceMap.applyLevels m ls, e.2 ≠ 0 := by
  induction ls with
  | nil => intro m hm; simpa [PriceMap.applyLevels] using hm
  | cons l t ih =>
    intro m hm
    have hstep : PriceMap.applyLevels m (l :: t)
        = PriceMap.applyLevels (PriceMap.applyLevel m l) t := rfl
    rw [hstep]
    exact ih (applyLevel_no_zero hm l)

/-- C1: the claim fails on the code, and the code contradicts its own comment.
`OrderBookManager::update` creates an absent symbol's book with
`last_update_id = 0` and then `apply_update` rejects any update with
`first_update_id > 1`, so spec scenario S1's bootstrap update (ids 42..45)
returns the gap error instead of `Ok`; `handle_depth_update` then removes the
just-created book again (its own comment at `websocket.rs:255` says the next
update "will be accepted as baseline"), leaving the store empty, so every
subsequent real-world update fails the same way. -/
theorem bootstrap_rejects_s1_update :
    (OrderBookManager.update { books := [] } "BTCUSDT" s1Update 0).1
        = Except.error (gapMessage 1 42) ∧
    handle_depth_update { books := [] } "BTCUSDT" s1Update 0 = ({ books := [] }, false) := by
  constructor
  · rfl
  · rfl

/-- C2: an update whose `first_update_id` exceeds `last_update_id + 1` makes
`apply_update` return the sequence-gap error and leave the book — bids, asks,
`last_update_id` and `timestamp` — exactly as it was. -/
theorem gap_leaves_book_unchanged (b : OrderBook) (u : DepthUpdate) (now : ℤ)
    (h : b.last_update_id + 1 < u.first_update_id) :
    b.apply_update u now
      = (Except.error (gapMessage (b.last_update_id + 1) u.first_update_id), b) := by
  simp [OrderBook.apply_update, h]

/-- Witness for C2: spec scenario S3's gap update (ids 100..100 against a book
at 45) at wall clock 7. -/
theorem gap_leaves_book_unchanged_witness :
    seededBook.last_update_id + 1 < 100 ∧
    seededBook.apply_update
        { symbol := "BTCUSDT", first_update_id := 100, last_update_id := 100,
          bids := [], asks := [] } 7
      = (Except.error (gapMessage (seededBook.last_update_id + 1) 100), seededBook) :=
  ⟨by norm_num [seededBook],
    gap_leaves_book_unchanged seededBook _ 7 (by norm_num [seededBook])⟩

/-- C3 counterexample: spec scenario S4's stale update (ids 10..20 against a
book at 45) is NOT dropped: `apply_update` has no staleness check, so it
returns `Ok`, overwrites the bid at 100 with quantity 9.9 and lowers
`last_update_id` to 20. -/
theorem stale_update_not_dropped :
    staleUpdate.last_update_id ≤ seededBook.last_update_id ∧
    (seededBook.apply_update staleUpdate 0).1 = Except.ok () ∧
    (seededBook.apply_update staleUpdate 0).2.bids = [(99, 2), (100, 99/10)] ∧
    (seededBook.apply_update staleUpdate 0).2.bids ≠ seededBook.bids ∧
    (seededBook.apply_update staleUpdate 0).2.last_update_id = 20 ∧
    seededBook.last_update_id = 45 := by
  refine ⟨by norm_num [staleUpdate, seededBook], ?_, ?_, ?_, ?_, by norm_num [seededBook]⟩ <;>
    norm_num [OrderBook.apply_update, seededBook, staleUpdate, PriceMap.applyLevels,
      PriceMap.applyLevel, PriceMap.insertLevel, PriceMap.removeLevel, List.foldl]

/-- C3 amended: an update whose `last_update_id` is at most the book's is
applied exactly like a fresh one whenever its `first_update_id` passes the
gap check — levels are applied and `last_update_id` is set (possibly
backwards) from the update.  There is no staleness drop. -/
theorem stale_update_applied_like_any (b : OrderBook) (u : DepthUpdate) (now : ℤ)
    (hstale : u.last_update_id ≤ b.last_update_id)
    (hseq : u.first_update_id ≤ b.last_update_id + 1) :
    b.apply_update u now =
      (Except.ok (),
        { b with
          bids := PriceMap.applyLevels b.bids u.bids
          asks := PriceMap.applyLevels b.asks u.asks
          last_update_id := u.last_update_id
          timestamp := now }) := by
  have hn : ¬ b.last_update_id + 1 < u.first_update_id := not_lt.mpr hseq
  simp [OrderBook.apply_update, hn]

/-- Witness for C3's amended theorem at spec scenario S4's input. -/
theorem stale_update_applied_like_any_witness :
    staleUpdate.last_update_id ≤ seededBook.last_update_id ∧
    staleUpdate.first_update_id ≤ seededBook.last_update_id + 1 ∧
    seededBook.apply_update staleUpdate 0 =
      (Except.ok (),
        { seededBook with
          bids := PriceMap.applyLevels seededBook.bids staleUpdate.bids
          asks := PriceMap.applyLevels seededBook.asks staleUpdate.asks
          last_update_id := staleUpdate.last_update_id
          timestamp := 0 }) :=
  ⟨by norm_num [staleUpdate, seededBook], by norm_num [staleUpdate, seededBook],
    stale_update_applied_like_any seededBook staleUpdate 0
      (by norm_num [staleUpdate, seededBook]) (by norm_num [staleUpdate, seededBook])⟩

/-- C4: on a book with no zero-quantity level, a successful `apply_update`
leaves no zero-quantity level on either side: each zero-quantity level of the
update only removes its price, each nonzero one upserts its (nonzero)
quantity. -/
theorem apply_update_no_zero_quantity (b : OrderBook) (u : DepthUpdate) (now : ℤ)
    (hb : ∀ e ∈ b.bids, e.2 ≠ 0) (ha : ∀ e ∈ b.asks, e.2 ≠ 0)
    (hok : (b.apply_update u now).1 = Except.ok ()) :
    (∀ e ∈ (b.apply_update u now).2.bids, e.2 ≠ 0) ∧
    (∀ e ∈ (b.apply_update u now).2.asks, e.2 ≠ 0) := by
  by_cases h : b.last_update_id + 1 < u.first_update_id
  · rw [OrderBook.apply_update, if_pos h] at hok
    exact absurd hok (by simp)
  · rw [OrderBook.apply_update, if_neg h]
    exact ⟨applyLevels_no_zero hb, applyLevels_no_zero ha⟩

/-- Witness for C4: the seeded S1 book under an update that deletes price 99
with a zero quantity and upserts an ask at 102. -/
theorem apply_update_no_zero_quantity_witness :
    (∀ e ∈ seededBook.bids, e.2 ≠ 0) ∧
    (∀ e ∈ seededBook.asks, e.2 ≠ 0) ∧
    (seededBook.apply_update zeroQtyUpdate 0).1 = Except.ok () ∧
    ((∀ e ∈ (seededBook.apply_update zeroQtyUpdate 0).2.bids, e.2 ≠ 0) ∧
     (∀ e ∈ (seededBook.apply_update zeroQtyUpdate 0).2.asks, e.2 ≠ 0)) :=
  ⟨by norm_num [seededBook], by norm_num [seededBook],
    by norm_num [OrderBook.apply_update, seededBook, zeroQtyUpdate],
    apply_update_no_zero_quantity seededBook zeroQtyUpdate 0
      (by norm_num [seededBook]) (by norm_num [seededBook])
      (by norm_num [OrderBook.apply_update, seededBook, zeroQtyUpdate])⟩

/-- Applying the crossing delta to a fresh book succeeds and yields
`crossedBook`. -/
theorem crossedUpdate_apply_eq :
    (OrderBook.new "BTCUSDT" 0).apply_update crossedUpdate 0
      = (Except.ok (), crossedBook) := rfl

/-- C5 counterexample: `apply_update` has no crossed-book check.  A single
delta with a bid at 100 and an ask at 50 is accepted; the post-apply book has
`max bid = 100`, `min ask = 50` — crossed — and `handle_depth_update` keeps
exactly that book in the store (it resets only on sequence errors). -/
theorem crossed_delta_retained :
    ((OrderBook.new "BTCUSDT" 0).apply_update crossedUpdate 0).1 = Except.ok () ∧
    ((OrderBook.new "BTCUSDT" 0).apply_update crossedUpdate 0).2 = crossedBook ∧
    crossedBook.best_bid = some 100 ∧
    crossedBook.best_ask = some 50 ∧
    ¬ (100 : ℚ) < 50 ∧
    (handle_depth_update { books := [] } "BTCUSDT" crossedUpdate 0).1.books
      = [("BTCUSDT", crossedBook)] := by
  refine ⟨rfl, rfl, ?_, ?_, by norm_num, ?_⟩
  · norm_num [crossedBook, crossedUpdate, OrderBook.apply_update, OrderBook.new,
      OrderBook.best_bid, PriceMap.applyLevels, PriceMap.applyLevel,
      PriceMap.insertLevel, List.foldl]
  · norm_num [crossedBook, crossedUpdate, OrderBook.apply_update, OrderBook.new,
      OrderBook.best_ask, PriceMap.applyLevels, PriceMap.applyLevel,
      PriceMap.insertLevel, List.foldl]
  · simp [handle_depth_update, OrderBookManager.update, booksLookup, booksInsert,
      crossedUpdate_apply_eq]

/-- C5 amended: a crossed book (min ask strictly below max bid) is reachable
by successful applies, and the depth-update handler retains it — neither
`apply_update` nor `handle_depth_update` detects crossing or resets the
book. -/
theorem crossed_book_reachable_and_kept :
    (∃ b, ReachableBook b ∧
      ∃ bb ba, b.best_bid = some bb ∧ b.best_ask = some ba ∧ ba < bb) ∧
    (handle_depth_update { books := [] } "BTCUSDT" crossedUpdate 0).1.books
      = [("BTCUSDT", crossedBook)] := by
  constructor
  · refine ⟨crossedBook,
      ReachableBook.step _ crossedUpdate 0 _ (ReachableBook.base "BTCUSDT" 0)
        crossedUpdate_apply_eq, 100, 50, ?_, ?_, by norm_num⟩
    · norm_num [crossedBook, crossedUpdate, OrderBook.apply_update, OrderBook.new,
        OrderBook.best_bid, PriceMap.applyLevels, PriceMap.applyLevel,
        PriceMap.insertLevel, List.foldl]
    · norm_num [crossedBook, crossedUpdate, OrderBook.apply_update, OrderBook.new,
        OrderBook.best_ask, PriceMap.applyLevels, PriceMap.applyLevel,
        PriceMap.insertLevel, List.foldl]
  · simp [handle_depth_update, OrderBookManager.update, booksLookup, booksInsert,
      crossedUpdate_apply_eq]

/-- C6 counterexample: a book with a non-empty bid side whose best bid price
is 0 (storable: the feed client parses bad price strings to `0.0`).  Both
sides are non-empty, yet the published `last_price` is 0, not the mid
`(0 + 101)/2 = 50.5`, because `publisher.rs:73` gates on `best_bid > 0.0 &&
best_ask > 0.0`, not on non-emptiness. -/
theorem quote_zero_despite_nonempty_sides :
    zeroBidBook.bids ≠ [] ∧ zeroBidBook.asks ≠ [] ∧
    zeroBidBook.best_bid = some 0 ∧ zeroBidBook.best_ask = some 101 ∧
    (marketDataOf zeroBidBook).last_price = 0 ∧
    zeroBidBook.mid_price = some (101 / 2) ∧
    (0 : ℚ) ≠ 101 / 2 := by
  refine ⟨by simp [zeroBidBook], by simp [zeroBidBook], ?_, ?_, ?_, ?_, by norm_num⟩ <;>
    norm_num [zeroBidBook, marketDataOf, OrderBook.best_bid, OrderBook.best_ask,
      OrderBook.mid_price]

/-- C6 amended: the quote summary of `publish_orderbook` carries the best bid
and ask (0 for an empty side); `last_price` is the mid `(best_bid +
best_ask)/2` — agreeing with `OrderBook::mid_price` — exactly when both best
prices are strictly positive (in particular whenever either side is empty it
is 0, and also 0 for non-empty sides whose best price is not positive). -/
theorem publish_quote_characterization (b : OrderBook) :
    (marketDataOf b).bid_price = b.best_bid.getD 0 ∧
    (marketDataOf b).ask_price = b.best_ask.getD 0 ∧
    ((b.bids = [] ∨ b.asks = []) → (marketDataOf b).last_price = 0) ∧
    (∀ bb ba, b.best_bid = some bb → b.best_ask = some ba → 0 < bb → 0 < ba →
      (marketDataOf b).last_price = (bb + ba) / 2 ∧
      b.mid_price = some ((bb + ba) / 2)) ∧
    (¬ (0 < b.best_bid.getD 0 ∧ 0 < b.best_ask.getD 0) →
      (marketDataOf b).last_price = 0) := by
  refine ⟨rfl, rfl, ?_, ?_, ?_⟩
  · rintro (h | h)
    · have hb : b.best_bid = none := by simp [OrderBook.best_bid, h]
      simp [marketDataOf, hb]
    · have ha : b.best_ask = none := by simp [OrderBook.best_ask, h]
      simp [marketDataOf, ha]
  · intro bb ba hbb hba h1 h2
    exact ⟨by simp [marketDataOf, hbb, hba, h1, h2],
      by simp [OrderBook.mid_price, hbb, hba]⟩
  · intro h
    simp [marketDataOf] at h ⊢
    intro hpos
    simp [h hpos]

/-- Witness for C6's amended theorem at the seeded S1 book: best bid 100,
best ask 101, published `last_price = 100.5 = mid`. -/
theorem publish_quote_characterization_witness :
    seededBook.best_bid = some 100 ∧ seededBook.best_ask = some 101 ∧
    (marketDataOf seededBook).last_price = (100 + 101) / 2 ∧
    seededBook.mid_price = some ((100 + 101) / 2) := by
  have hbb : seededBook.best_bid = some 100 := by
    norm_num [seededBook, OrderBook.best_bid]
  have hba : seededBook.best_ask = some 101 := by
    norm_num [seededBook, OrderBook.best_ask]
  have h := (publish_quote_characterization seededBook).2.2.2.1 100 101 hbb hba
    (by norm_num) (by norm_num)
  exact ⟨hbb, hba, h.1, h.2⟩

/-- C7 amended: `publish_orderbook` attempts all four sinks exactly once each
regardless of any combination of per-sink failures and returns `Ok`, but only
failures of the step-1 orderbook-channel publish and the step-2 cache set
increment the symbol-labelled error counter; failures of the step-3
market-data-channel publish and the step-4 ring write are logged without
incrementing it.  `REDIS_PUBLISHES` moves only for the two successful bus
publishes. -/
theorem publish_orderbook_fanout (b : OrderBook) (o : PublishOutcomes) :
    publish_orderbook b o =
      { busOrderbookAttempts := 1, cacheSetAttempts := 1, busMarketDataAttempts := 1,
        ringWriteAttempts := 1,
        redisErrors :=
          (if o.busOrderbook then 0 else 1) + (if o.cacheSet then 0 else 1),
        redisPublishes :=
          (if o.busOrderbook then 1 else 0) + (if o.busMarketData then 1 else 0),
        returnsOk := true } := by
  obtain ⟨b1, b2, b3, b4⟩ := o
  cases b1 <;> cases b2 <;> cases b3 <;> simp [publish_orderbook]

/-- C7 counterexample: with the market-data-channel publish failing and every
other sink succeeding, a sink failed yet the symbol-labelled error counter
moved by 0 — refuting "every sink failure increments the symbol-labelled
error counter". -/
theorem marketdata_publish_failure_uncounted :
    (publish_orderbook seededBook
        { busOrderbook := true, cacheSet := true, busMarketData := false,
          ringWrite := true }).busMarketDataAttempts = 1 ∧
    (publish_orderbook seededBook
        { busOrderbook := true, cacheSet := true, busMarketData := false,
          ringWrite := true }).redisErrors = 0 ∧
    (publish_orderbook seededBook
        { busOrderbook := true, cacheSet := true, busMarketData := false,
          ringWrite := true }).returnsOk = true := by
  refine ⟨rfl, rfl, rfl⟩

/-- C8: the ring's write/read contract.  A record longer than the 64 KiB cap
is rejected as too large with the ring untouched; when the queue already
holds `capacity` records the write is rejected as full with every stored
record intact (drop-newest, no overwrite); otherwise the write appends and
returns `Ok`.  A read returns `none` exactly on the empty ring and otherwise
removes and returns the oldest record. -/
theorem ring_write_read_contract (r : SharedMemoryRing) (data : List ℕ)
    (hmax : r.max_message_size = 64 * 1024) :
    (64 * 1024 < data.length →
      r.write data = (Except.error "Message too large", r)) ∧
    (data.length ≤ 64 * 1024 → r.capacity ≤ r.queue.length →
      r.write data = (Except.error "Ring buffer full", r)) ∧
    (data.length ≤ 64 * 1024 → r.queue.length < r.capacity →
      r.write data = (Except.ok (), { r with queue := r.queue ++ [data] })) ∧
    (r.read.1 = none ↔ r.queue = []) ∧
    (∀ d t, r.queue = d :: t → r.read = (some d, { r with queue := t })) := by
  refine ⟨?_, ?_, ?_, ?_, ?_⟩
  · intro h
    rw [SharedMemoryRing.write, hmax, if_pos h]
  · intro h1 h2
    rw [SharedMemoryRing.write, hmax, if_neg (not_lt.mpr h1),
      if_neg (not_lt.mpr h2)]
  · intro h1 h2
    rw [SharedMemoryRing.write, hmax, if_neg (not_lt.mpr h1), if_pos h2]
  · rcases hq : r.queue with _ | ⟨d, t⟩ <;> simp [SharedMemoryRing.read, hq]
  · intro d t h
    simp [SharedMemoryRing.read, h]

/-- Witness for C8: a freshly-created ring accepts a 2-byte record. -/
theorem ring_write_read_contract_witness :
    (SharedMemoryRing.new "market_data_shm" 1048576).max_message_size = 64 * 1024 ∧
    (SharedMemoryRing.new "market_data_shm" 1048576).write [7, 8]
      = (Except.ok (), { SharedMemoryRing.new "market_data_shm" 1048576 with
          queue := (SharedMemoryRing.new "market_data_shm" 1048576).queue ++ [[7, 8]] }) :=
  ⟨rfl,
    (ring_write_read_contract (SharedMemoryRing.new "market_data_shm" 1048576) [7, 8]
        rfl).2.2.1 (by norm_num) (by norm_num [SharedMemoryRing.new])⟩

/-- C10: `SharedMemoryRing::new` ignores its `capacity` argument entirely —
any two requested capacities yield the same ring, with 1024 slots and a
64 KiB per-record cap — so the Publisher's request for a 1 MiB ring
(`publisher.rs:40`) still yields a 1024-slot ring. -/
theorem shm_new_ignores_capacity (name : String) (c1 c2 : ℕ) :
    SharedMemoryRing.new name c1 = SharedMemoryRing.new name c2 ∧
    (SharedMemoryRing.new name c1).capacity = 1024 ∧
    (SharedMemoryRing.new name c1).max_message_size = 64 * 1024 ∧
    publisherShmRing name = SharedMemoryRing.new name (1024 * 1024) ∧
    (publisherShmRing name).capacity = 1024 ∧
    (publisherShmRing name).max_message_size = 64 * 1024 :=
  ⟨rfl, rfl, rfl, rfl, rfl, rfl⟩

/-- The 60000 ms cap commutes with doubling under `min`. -/
theorem min_double_cap_pow (a c i : ℕ) : min (min a c * 2 ^ i) c = min (a * 2 ^ i) c := by
  rcases le_total a c with h | h
  · rw [min_eq_left h]
  · have hp : (1 : ℕ) ≤ 2 ^ i := Nat.one_le_two_pow
    have h1 : c ≤ c * 2 ^ i := le_mul_of_one_le_right (Nat.zero_le c) hp
    have h2 : c ≤ a * 2 ^ i := le_trans h (le_mul_of_one_le_right (Nat.zero_le a) hp)
    rw [min_eq_right h, min_eq_right h1, min_eq_right h2]

/-- The `i`-th sleep of the retry loop started at delay `d ≤ 60000` is
`min (d * 2 ^ i) 60000`. -/
theorem backoffSleeps_get? (os : List SessionOutcome) :
    ∀ d i, d ≤ 60000 → i < (backoffSleeps os d).length →
      (backoffSleeps os d).get? i = some (min (d * 2 ^ i) 60000) := by
  induction os with
  | nil => intro d i hd hi; simp [backoffSleeps] at hi
  | cons o rest ih =>
    intro d i hd hi
    by_cases he : o.isErr
    · rw [backoffSleeps, if_pos he] at hi ⊢
      cases i with
      | zero => simp [min_eq_left hd]
      | succ i =>
        have hd2 : min (d * 2) 60000 ≤ 60000 := min_le_right _ _
        have hi2 : i < (backoffSleeps rest (min (d * 2) 60000)).length := by
          simpa using hi
        have hrec := ih (min (d * 2) 60000) i hd2 hi2
        rw [List.get?_cons_succ, hrec, min_double_cap_pow]
        congr 1
        ring_nf
    · rw [backoffSleeps, if_neg he] at hi
      simp at hi

/-- C9 amended: the retry loop of `connect_and_run` never resets its delay.
Whatever the run outcomes are, the `i`-th sleep (0-based) is
`min (1000 * 2 ^ i) 60000` ms: 1 s after the first failure, doubling on each
consecutive failure, capped at 60 s — including failures that follow a
successfully-established connection (a connection whose stream later errors),
which therefore do NOT restart at 1 s.  A normal close ends the loop. -/
theorem connect_and_run_backoff (os : List SessionOutcome) (i : ℕ)
    (h : i < (connectAndRunSleeps os).length) :
    (connectAndRunSleeps os).get? i = some (min (1000 * 2 ^ i) 60000) :=
  backoffSleeps_get? os 1000 i (by norm_num) h

/-- Witness for C9's amended theorem: the second of two failures sleeps
`min (1000 * 2) 60000 = 2000` ms. -/
theorem connect_and_run_backoff_witness :
    (connectAndRunSleeps
        [SessionOutcome.connectFail, SessionOutcome.connectFail]).get? 1
      = some (min (1000 * 2 ^ 1) 60000) :=
  connect_and_run_backoff
    [SessionOutcome.connectFail, SessionOutcome.connectFail] 1 (by decide)

/-- C9 counterexample: two connect failures (sleeps 1000 and 2000 ms) followed
by a successfully-established connection whose stream then errors.  That
failure — the first after a successful connection — sleeps 4000 ms, not the
claimed initial 1000 ms: `connect_and_run` has no reset-on-success (on a
clean close it returns instead, `websocket.rs:91-94`). -/
theorem backoff_not_reset_after_success :
    connectAndRunSleeps
        [SessionOutcome.connectFail, SessionOutcome.connectFail,
          SessionOutcome.streamError]
      = [1000, 2000, 4000] ∧
    SessionOutcome.streamError.isErr = true ∧
    (4000 : ℕ) ≠ 1000 := by
  refine ⟨rfl, rfl, by norm_num⟩
